import Mathlib

/-!
Verification of the beep evdev driver (src/beep-driver-evdev.c) against its
natural-language specification.  The C source is shallowly embedded: the
kernel/OS side (open, ioctl, write, close) is an oracle environment `Env`
plus an explicit system state `SysState` recording open file descriptors,
open attempts, device writes and close calls.  Machine integers are modelled
as `Int`/`Nat`; `uint16_t` frequencies are `Nat` with an explicit bound where
a claim needs it.
-/

/-- Linux input-event type code `EV_SND` (0x12), from linux/input-event-codes.h. -/
def EV_SND : Nat := 0x12

/-- Linux sound-event code `SND_BELL` (0x01), from linux/input-event-codes.h. -/
def SND_BELL : Nat := 0x01

/-- Linux sound-event code `SND_TONE` (0x02), from linux/input-event-codes.h. -/
def SND_TONE : Nat := 0x02

/-- The C `enum snd_api_type` constant `SND_API_TONE` (first enumerator, value 0). -/
def SND_API_TONE : Nat := 0

/-- The C `enum snd_api_type` constant `SND_API_BELL` (second enumerator, value 1). -/
def SND_API_BELL : Nat := 1

/-- Size in bytes of `struct input_event` on 64-bit Linux: a 16-byte
`struct timeval` timestamp followed by `__u16 type`, `__u16 code`,
`__s32 value`.  The driver writes records of exactly this size and
compares the byte count returned by `write` against it. -/
def input_event_size : Nat := 24

/-- Embedding of `struct input_event` (linux/input.h): timestamp (two machine words),
event type, event code, event value.  There is no padding on 64-bit
Linux, so these five fields are the whole record. -/
structure InputEvent where
  time_tv_sec : Int
  time_tv_usec : Int
  type : Nat
  code : Nat
  value : Int
  deriving Repr, DecidableEq

/-- One `write` call made by the driver: target file descriptor, the
event record transferred, and the byte count requested (always
`sizeof(struct input_event)` in this driver). -/
structure WriteRec where
  fd : Int
  ev : InputEvent
  count : Nat
  deriving Repr, DecidableEq

/-- The observable system state threaded through the embedded driver
code: the kernel's table of open file descriptors, the log of device
paths on which an open was attempted, the log of device writes, and the
log of `close` calls. -/
structure SysState where
  openFds : List Int
  attempts : List String
  writes : List WriteRec
  closeCalls : List Int
  deriving Repr, DecidableEq

/-- The oracle environment deciding the outcome of each kernel
interaction: `validate` is the Device Validator's verdict on a path
(`some fd` on success), `sndSupported fd` is whether
`ioctl(fd, EVIOCGSND(0))` succeeds, `sndBits fd` is the bitmask returned
by `ioctl(fd, EVIOCGBIT(EV_SND, ...))` (`none` when that ioctl errors),
and `writeResult fd` is the byte count returned by `write` on `fd`. -/
structure Env where
  validate : String → Option Nat
  sndSupported : Int → Bool
  sndBits : Int → Option Nat
  writeResult : Int → Int

/-- The `beep_driver` struct fields this driver reads or writes
(beep-drivers.h): the backend name, the device file descriptor, the
device path, and the flags word holding the selected `snd_api_type`.
The function-pointer members are the operations modelled below. -/
structure BeepDriver where
  name : String
  device_fd : Int
  device_name : Option String
  device_flags : Nat
  deriving Repr, DecidableEq

/-- Modelled from the spec: the external Device Validator helper
`open_checked_char_device` (declared in beep-library.h; its body is not
part of this source file).  Per the spec it is "given a filesystem path,
opens it and confirms it is a character device"; it "returns an open
handle or a negative signal", and on failure no resource is held (the
helper closes internally).  Every call is one open attempt, which we
record in the attempt log. -/
def open_checked_char_device (env : Env) (s : SysState) (device_name : String) :
    Int × SysState :=
  let s1 : SysState := { s with attempts := s.attempts ++ [device_name] }
  match env.validate device_name with
  | some fd => (Int.ofNat fd, { s1 with openFds := s1.openFds.insert (Int.ofNat fd) })
  | none => (-1, s1)

/-- Embedding of `open_checked_device` (src/beep-driver-evdev.c lines 61-75): open and
validate the path, then check the device implements the EV_SND API via
`ioctl(fd, EVIOCGSND(0))`; on ioctl failure it returns -1 (without
closing `fd`). -/
def open_checked_device (env : Env) (s : SysState) (device_name : String) :
    Int × SysState :=
  let r := open_checked_char_device env s device_name
  if r.1 = -1 then (-1, r.2)
  else if ¬ env.sndSupported r.1 then (-1, r.2)
  else (r.1, r.2)

/-- The hard-coded default device path used by `driver_detect` when no
console device is supplied (src/beep-driver-evdev.c lines 102-104). -/
def default_name : String := "/dev/input/by-path/platform-pcspkr-event-spkr"

/-- Embedding of `driver_detect` (src/beep-driver-evdev.c lines 78-142): open the
caller-supplied path, or else the single default path; on open success
store the fd and path in the driver; then query the EV_SND code bitmask
with `EVIOCGBIT` and select `SND_API_TONE` if the `SND_TONE` bit is set,
else `SND_API_BELL` if the `SND_BELL` bit is set, else fail.  Returns
(detect result, updated driver, updated system state). -/
def driver_detect (env : Env) (s : SysState) (driver : BeepDriver)
    (console_device : Option String) : Bool × BeepDriver × SysState :=
  let dev : String :=
    match console_device with
    | some d => d
    | none => default_name
  let r := open_checked_device env s dev
  if r.1 ≥ 0 then
    let d1 : BeepDriver := { driver with device_fd := r.1, device_name := some dev }
    match env.sndBits d1.device_fd with
    | none => (false, d1, r.2)
    | some evbit =>
      if evbit &&& (1 <<< SND_TONE) ≠ 0 then
        (true, { d1 with device_flags := SND_API_TONE }, r.2)
      else if evbit &&& (1 <<< SND_BELL) ≠ 0 then
        (true, { d1 with device_flags := SND_API_BELL }, r.2)
      else
        (false, d1, r.2)
  else
    (false, driver, r.2)

/-- Embedding of `driver_fini` (src/beep-driver-evdev.c lines 152-158): unconditionally
`close(driver->device_fd)` and set `device_fd` to -1. -/
def driver_fini (s : SysState) (driver : BeepDriver) : BeepDriver × SysState :=
  ({ driver with device_fd := -1 },
   { s with openFds := s.openFds.filter (fun fd => fd ≠ driver.device_fd),
            closeCalls := s.closeCalls ++ [driver.device_fd] })

/-- Embedding of `driver_begin_tone` (src/beep-driver-evdev.c lines 161-185): build a
zeroed `struct input_event`, set `type = EV_SND`, then per the stored
`snd_api_type` set `code`/`value` (`SND_TONE`/freq, or `SND_BELL`/1; a
flags word that is neither enumerator matches no switch case and leaves
`code`/`value` zero).  Write the record; if `write` does not return
`sizeof(e)` the process terminates via `safe_error_exit`.  Returns the
state after the write and whether the call returned normally. -/
def driver_begin_tone (env : Env) (s : SysState) (driver : BeepDriver)
    (freq : Nat) : SysState × Bool :=
  let e : InputEvent :=
    if driver.device_flags = SND_API_TONE then
      { time_tv_sec := 0, time_tv_usec := 0, type := EV_SND,
        code := SND_TONE, value := Int.ofNat freq }
    else if driver.device_flags = SND_API_BELL then
      { time_tv_sec := 0, time_tv_usec := 0, type := EV_SND,
        code := SND_BELL, value := 1 }
    else
      { time_tv_sec := 0, time_tv_usec := 0, type := EV_SND,
        code := 0, value := 0 }
  let s1 : SysState :=
    { s with writes := s.writes ++ [{ fd := driver.device_fd, ev := e,
                                      count := input_event_size }] }
  (s1, env.writeResult driver.device_fd = Int.ofNat input_event_size)

/-- Embedding of `driver_end_tone` (src/beep-driver-evdev.c lines 188-211): like
`driver_begin_tone` but with value 0 under `SND_API_TONE` and value
`(0 != 0)` = 0 under `SND_API_BELL`. -/
def driver_end_tone (env : Env) (s : SysState) (driver : BeepDriver) :
    SysState × Bool :=
  let e : InputEvent :=
    if driver.device_flags = SND_API_TONE then
      { time_tv_sec := 0, time_tv_usec := 0, type := EV_SND,
        code := SND_TONE, value := 0 }
    else if driver.device_flags = SND_API_BELL then
      { time_tv_sec := 0, time_tv_usec := 0, type := EV_SND,
        code := SND_BELL, value := 0 }
    else
      { time_tv_sec := 0, time_tv_usec := 0, type := EV_SND,
        code := 0, value := 0 }
  let s1 : SysState :=
    { s with writes := s.writes ++ [{ fd := driver.device_fd, ev := e,
                                      count := input_event_size }] }
  (s1, env.writeResult driver.device_fd = Int.ofNat input_event_size)

/-- The statically initialized `driver_data` instance
(src/beep-driver-evdev.c lines 214-227): name "evdev", `device_fd` 0,
`device_name` NULL, `device_flags` 0. -/
def driver_data : BeepDriver :=
  { name := "evdev", device_fd := 0, device_name := none, device_flags := 0 }

/-- The empty initial system state, used for concrete instantiations. -/
def emptyState : SysState :=
  { openFds := [], attempts := [], writes := [], closeCalls := [] }

/-- A concrete environment: every path validates to fd 3, the EV_SND API
probe succeeds, the EV_SND code bitmask is 6 (both the SND_BELL bit 1 and
the SND_TONE bit 2 set), and every write returns 24 bytes. -/
def envOk : Env :=
  { validate := fun _ => some 3, sndSupported := fun _ => true,
    sndBits := fun _ => some 6, writeResult := fun _ => 24 }

/-- Like `envOk` but the EVIOCGBIT bitmask query itself errors. -/
def envNoBits : Env := { envOk with sndBits := fun _ => none }

/-- Like `envOk` but the EVIOCGSND sound-class probe fails. -/
def envNoSnd : Env := { envOk with sndSupported := fun _ => false }

/-- A concrete driver instance in the tone-protocol detected state. -/
def dTone : BeepDriver :=
  { name := "evdev", device_fd := 3, device_name := some default_name,
    device_flags := SND_API_TONE }

/-- A concrete driver instance in the bell-protocol detected state. -/
def dBell : BeepDriver :=
  { name := "evdev", device_fd := 3, device_name := some default_name,
    device_flags := SND_API_BELL }

/-- C1: under `ToneProtocol` (`device_flags = SND_API_TONE`),
`driver_begin_tone` with any frequency `f` in [0, 65535] — including
`f = 0` — produces exactly one device write of one fixed-size sound-event
record whose code is `SND_TONE` and whose value is exactly `f`;
`driver_end_tone` produces a write with the same code and value 0,
whatever state precedes it. -/
theorem C1_tone_protocol_writes (env : Env) (s : SysState) (d : BeepDriver)
    (f : Nat) (hflags : d.device_flags = SND_API_TONE) (_hf : f < 65536) :
    (driver_begin_tone env s d f).1.writes =
      s.writes ++ [{ fd := d.device_fd,
                     ev := { time_tv_sec := 0, time_tv_usec := 0, type := EV_SND,
                             code := SND_TONE, value := Int.ofNat f },
                     count := input_event_size }] ∧
    (driver_end_tone env s d).1.writes =
      s.writes ++ [{ fd := d.device_fd,
                     ev := { time_tv_sec := 0, time_tv_usec := 0, type := EV_SND,
                             code := SND_TONE, value := 0 },
                     count := input_event_size }] := by
  constructor <;> simp [driver_begin_tone, driver_end_tone, hflags]

/-- C1 witness: the tone-protocol driver at frequency 0. -/
theorem C1_tone_protocol_writes_witness :
    dTone.device_flags = SND_API_TONE ∧ 0 < 65536 ∧
    ((driver_begin_tone envOk emptyState dTone 0).1.writes =
      emptyState.writes ++
        [{ fd := dTone.device_fd,
           ev := { time_tv_sec := 0, time_tv_usec := 0, type := EV_SND,
                   code := SND_TONE, value := Int.ofNat 0 },
           count := input_event_size }] ∧
     (driver_end_tone envOk emptyState dTone).1.writes =
      emptyState.writes ++
        [{ fd := dTone.device_fd,
           ev := { time_tv_sec := 0, time_tv_usec := 0, type := EV_SND,
                   code := SND_TONE, value := 0 },
           count := input_event_size }]) :=
  ⟨rfl, by decide, C1_tone_protocol_writes envOk emptyState dTone 0 rfl (by decide)⟩

/-- C3: `driver_begin_tone` and `driver_end_tone` return normally if and
only if the byte count returned by the device write equals
`sizeof(struct input_event)`; any other count takes the fatal
`safe_error_exit` path instead of returning. -/
theorem C3_short_write_fatal (env : Env) (s : SysState) (d : BeepDriver)
    (f : Nat) :
    ((driver_begin_tone env s d f).2 = true ↔
       env.writeResult d.device_fd = Int.ofNat input_event_size) ∧
    ((driver_end_tone env s d).2 = true ↔
       env.writeResult d.device_fd = Int.ofNat input_event_size) := by
  constructor <;> simp [driver_begin_tone, driver_end_tone]

/-- C6: under `BellProtocol` (`device_flags = SND_API_BELL`),
`driver_begin_tone` ignores the frequency argument and writes a record
with code `SND_BELL` and value 1; `driver_end_tone` writes the same code
with value 0. -/
theorem C6_bell_protocol_writes (env : Env) (s : SysState) (d : BeepDriver)
    (f : Nat) (hflags : d.device_flags = SND_API_BELL) :
    (driver_begin_tone env s d f).1.writes =
      s.writes ++ [{ fd := d.device_fd,
                     ev := { time_tv_sec := 0, time_tv_usec := 0, type := EV_SND,
                             code := SND_BELL, value := 1 },
                     count := input_event_size }] ∧
    (driver_end_tone env s d).1.writes =
      s.writes ++ [{ fd := d.device_fd,
                     ev := { time_tv_sec := 0, time_tv_usec := 0, type := EV_SND,
                             code := SND_BELL, value := 0 },
                     count := input_event_size }] := by
  constructor <;> simp [driver_begin_tone, driver_end_tone, hflags, SND_API_BELL, SND_API_TONE]

/-- C6 witness: the bell-protocol driver at frequency 440. -/
theorem C6_bell_protocol_writes_witness :
    dBell.device_flags = SND_API_BELL ∧
    ((driver_begin_tone envOk emptyState dBell 440).1.writes =
      emptyState.writes ++
        [{ fd := dBell.device_fd,
           ev := { time_tv_sec := 0, time_tv_usec := 0, type := EV_SND,
                   code := SND_BELL, value := 1 },
           count := input_event_size }] ∧
     (driver_end_tone envOk emptyState dBell).1.writes =
      emptyState.writes ++
        [{ fd := dBell.device_fd,
           ev := { time_tv_sec := 0, time_tv_usec := 0, type := EV_SND,
                   code := SND_BELL, value := 0 },
           count := input_event_size }]) :=
  ⟨rfl, C6_bell_protocol_writes envOk emptyState dBell 440 rfl⟩

/-- C8: `driver_fini`, from any instance state, resets `device_fd` to the
-1 "not open" sentinel, leaves the handle it held no longer open, and
issues exactly one `close` call on that handle — including states in
which detect or probe partially failed after opening the handle. -/
theorem C8_fini_releases (s : SysState) (d : BeepDriver) :
    (driver_fini s d).1.device_fd = -1 ∧
    d.device_fd ∉ (driver_fini s d).2.openFds ∧
    (driver_fini s d).2.closeCalls = s.closeCalls ++ [d.device_fd] := by
  refine ⟨rfl, ?_, rfl⟩
  simp [driver_fini, List.mem_filter]

/-- C9: `driver_fini` is unconditional: for every instance state it calls
`close` on whatever value `device_fd` currently holds and then sets the
field to -1, never checking whether a device is actually open; and the
statically initialized `driver_data` starts with `device_fd` 0, not the
-1 "not open" sentinel. -/
theorem C9_fini_unconditional :
    driver_data.device_fd = 0 ∧ driver_data.device_fd ≠ -1 ∧
    ∀ (s : SysState) (d : BeepDriver),
      (driver_fini s d).2.closeCalls = s.closeCalls ++ [d.device_fd] ∧
      (driver_fini s d).1.device_fd = -1 := by
  refine ⟨rfl, by decide, fun s d => ⟨rfl, rfl⟩⟩

/-- C10: every event record written by `driver_begin_tone` or
`driver_end_tone` — whatever protocol flags the driver holds — has event
type `EV_SND` and zero timestamp fields, because the record is
zero-initialized before type, code and value are set. -/
theorem C10_zeroed_records (env : Env) (s : SysState) (d : BeepDriver)
    (f : Nat) :
    (∃ e, (driver_begin_tone env s d f).1.writes =
        s.writes ++ [{ fd := d.device_fd, ev := e, count := input_event_size }] ∧
      e.type = EV_SND ∧ e.time_tv_sec = 0 ∧ e.time_tv_usec = 0) ∧
    (∃ e, (driver_end_tone env s d).1.writes =
        s.writes ++ [{ fd := d.device_fd, ev := e, count := input_event_size }] ∧
      e.type = EV_SND ∧ e.time_tv_sec = 0 ∧ e.time_tv_usec = 0) := by
  constructor <;>
    exact ⟨_, rfl, by split <;> (try split) <;> rfl,
           by split <;> (try split) <;> rfl, by split <;> (try split) <;> rfl⟩

/-- The system state after `driver_detect` is exactly the state after its
single `open_checked_device` call: the probe phase never touches it. -/
theorem driver_detect_sysstate (env : Env) (s : SysState) (d : BeepDriver)
    (cd : Option String) :
    (driver_detect env s d cd).2.2 =
      (open_checked_device env s (cd.getD default_name)).2 := by
  cases cd <;>
  · unfold driver_detect
    dsimp only [Option.getD]
    split
    · split
      · rfl
      · split
        · rfl
        · split <;> rfl
    · rfl

/-- Lemma: `open_checked_device` records exactly one open attempt, on the path it
was given, whatever the outcome. -/
theorem open_checked_device_attempts (env : Env) (s : SysState) (n : String) :
    (open_checked_device env s n).2.attempts = s.attempts ++ [n] := by
  unfold open_checked_device open_checked_char_device
  rcases hv : env.validate n with _ | fd <;> simp only [hv] <;>
    first
      | rfl
      | (split <;> (try split) <;> rfl)

/-- C2: whenever the opened device's EV_SND bitmask has both the SND_TONE
bit and the SND_BELL bit set, `driver_detect` succeeds and selects
`SND_API_TONE`, never `SND_API_BELL`: the tone check comes first in the
fixed priority order. -/
theorem C2_tone_priority (env : Env) (s : SysState) (d : BeepDriver)
    (p : String) (fd : Nat) (evbit : Nat)
    (hv : env.validate p = some fd)
    (hs : env.sndSupported (fd : Int) = true)
    (hb : env.sndBits (fd : Int) = some evbit)
    (htone : evbit &&& (1 <<< SND_TONE) ≠ 0)
    (_hbell : evbit &&& (1 <<< SND_BELL) ≠ 0) :
    (driver_detect env s d (some p)).1 = true ∧
    (driver_detect env s d (some p)).2.1.device_flags = SND_API_TONE := by
  have h1 : (fd : Int) ≠ -1 := by omega
  have h2 : (0 : Int) ≤ (fd : Int) := by omega
  simp [driver_detect, open_checked_device, open_checked_char_device,
        hv, hs, hb, htone, h1, h2]

/-- C2 witness: a device validating to fd 3 whose bitmask 6 has both the
SND_BELL bit (1) and the SND_TONE bit (2) set. -/
theorem C2_tone_priority_witness :
    envOk.validate "/dev/input/event0" = some 3 ∧
    envOk.sndSupported ((3 : Nat) : Int) = true ∧
    envOk.sndBits ((3 : Nat) : Int) = some 6 ∧
    6 &&& (1 <<< SND_TONE) ≠ 0 ∧
    6 &&& (1 <<< SND_BELL) ≠ 0 ∧
    ((driver_detect envOk emptyState driver_data (some "/dev/input/event0")).1 = true ∧
     (driver_detect envOk emptyState driver_data
        (some "/dev/input/event0")).2.1.device_flags = SND_API_TONE) :=
  ⟨rfl, rfl, rfl, by decide, by decide,
   C2_tone_priority envOk emptyState driver_data "/dev/input/event0" 3 6
     rfl rfl rfl (by decide) (by decide)⟩

/-- C4: when the device opens and passes validation but the probe fails —
the EVIOCGBIT query itself errors, or the bitmask has neither the
SND_TONE nor the SND_BELL bit — `driver_detect` returns the same plain
failure in both cases, with the opened fd stored in the driver and still
open, so that a subsequent `driver_fini` can and does close it. -/
theorem C4_probe_failure_keeps_handle (env : Env) (s : SysState)
    (d : BeepDriver) (p : String) (fd : Nat)
    (hv : env.validate p = some fd)
    (hs : env.sndSupported (fd : Int) = true)
    (hprobe : env.sndBits (fd : Int) = none ∨
              ∃ evbit, env.sndBits (fd : Int) = some evbit ∧
                evbit &&& (1 <<< SND_TONE) = 0 ∧ evbit &&& (1 <<< SND_BELL) = 0) :
    (driver_detect env s d (some p)).1 = false ∧
    (driver_detect env s d (some p)).2.1.device_fd = (fd : Int) ∧
    (driver_detect env s d (some p)).2.1.device_name = some p ∧
    (fd : Int) ∈ (driver_detect env s d (some p)).2.2.openFds ∧
    (fd : Int) ∉
      (driver_fini (driver_detect env s d (some p)).2.2
          (driver_detect env s d (some p)).2.1).2.openFds := by
  have h1 : (fd : Int) ≠ -1 := by omega
  have h2 : (0 : Int) ≤ (fd : Int) := by omega
  rcases hprobe with hnone | ⟨evbit, hbits, ht, hb⟩
  · simp [driver_detect, open_checked_device, open_checked_char_device,
          driver_fini, hv, hs, hnone, h1, h2, List.mem_insert_iff,
          List.mem_filter]
  · simp [driver_detect, open_checked_device, open_checked_char_device,
          driver_fini, hv, hs, hbits, ht, hb, h1, h2, List.mem_insert_iff,
          List.mem_filter]

/-- C4 witness: a device validating to fd 3 whose EVIOCGBIT query errors. -/
theorem C4_probe_failure_keeps_handle_witness :
    envNoBits.validate "/dev/input/event0" = some 3 ∧
    envNoBits.sndSupported ((3 : Nat) : Int) = true ∧
    (envNoBits.sndBits ((3 : Nat) : Int) = none ∨
     ∃ evbit, envNoBits.sndBits ((3 : Nat) : Int) = some evbit ∧
       evbit &&& (1 <<< SND_TONE) = 0 ∧ evbit &&& (1 <<< SND_BELL) = 0) ∧
    ((driver_detect envNoBits emptyState driver_data (some "/dev/input/event0")).1 = false ∧
     (driver_detect envNoBits emptyState driver_data
        (some "/dev/input/event0")).2.1.device_fd = ((3 : Nat) : Int) ∧
     (driver_detect envNoBits emptyState driver_data
        (some "/dev/input/event0")).2.1.device_name = some "/dev/input/event0" ∧
     ((3 : Nat) : Int) ∈ (driver_detect envNoBits emptyState driver_data
        (some "/dev/input/event0")).2.2.openFds ∧
     ((3 : Nat) : Int) ∉
       (driver_fini (driver_detect envNoBits emptyState driver_data
            (some "/dev/input/event0")).2.2
          (driver_detect envNoBits emptyState driver_data
            (some "/dev/input/event0")).2.1).2.openFds) :=
  ⟨rfl, rfl, Or.inl rfl,
   C4_probe_failure_keeps_handle envNoBits emptyState driver_data
     "/dev/input/event0" 3 rfl rfl (Or.inl rfl)⟩

/-- When the Validator rejects the path, `open_checked_device` returns -1
and only the attempt log changes. -/
theorem open_checked_device_validate_none (env : Env) (s : SysState)
    (dev : String) (hv : env.validate dev = none) :
    open_checked_device env s dev =
      (-1, { s with attempts := s.attempts ++ [dev] }) := by
  simp [open_checked_device, open_checked_char_device, hv]

/-- When the Validator accepts the path with fd `n` but the EVIOCGSND
probe fails, `open_checked_device` returns -1 while fd `n` stays in the
open-fd table. -/
theorem open_checked_device_snd_fail (env : Env) (s : SysState)
    (dev : String) (n : Nat) (hv : env.validate dev = some n)
    (hs : env.sndSupported (n : Int) = false) :
    open_checked_device env s dev =
      (-1, { s with openFds := s.openFds.insert (n : Int),
                    attempts := s.attempts ++ [dev] }) := by
  have h1 : (n : Int) ≠ -1 := by omega
  simp [open_checked_device, open_checked_char_device, hv, hs, h1]

/-- When its single `open_checked_device` call reports failure,
`driver_detect` returns plain failure with the driver unchanged and the
state left by that call. -/
theorem driver_detect_open_fail (env : Env) (s : SysState) (d : BeepDriver)
    (cd : Option String)
    (hfail : (open_checked_device env s (cd.getD default_name)).1 = -1) :
    driver_detect env s d cd =
      (false, d, (open_checked_device env s (cd.getD default_name)).2) := by
  cases cd <;>
    · simp only [Option.getD] at hfail
      simp only [driver_detect, hfail]
      rfl

/-- C5 fails as stated: with a device path that the Validator accepts
(fd 3) but whose EVIOCGSND sound-class probe errors, `driver_detect`
returns failure and leaves the instance unmodified, yet fd 3 — opened by
the Validator — remains open: `open_checked_device` returns -1 on that
path without closing the descriptor. -/
theorem C5_counterexample :
    (driver_detect envNoSnd emptyState driver_data (some "/dev/input/event0")).1 = false ∧
    (driver_detect envNoSnd emptyState driver_data (some "/dev/input/event0")).2.1 =
      driver_data ∧
    ((3 : Nat) : Int) ∈
      (driver_detect envNoSnd emptyState driver_data
        (some "/dev/input/event0")).2.2.openFds := by
  refine ⟨rfl, rfl, ?_⟩
  decide

/-- C5 amended: on a path failing the open/character-device check,
`driver_detect` fails with the instance unmodified and the open-fd table
unchanged (no resource held); on a path failing the EVIOCGSND
sound-event-class check, it fails with the instance unmodified and no
handle stored, but the descriptor opened by the Validator stays in the
open-fd table — it is not closed. -/
theorem C5_open_failure_amended (env : Env) (s : SysState) (d : BeepDriver)
    (cd : Option String) (fdo : Option Nat)
    (hv : env.validate (cd.getD default_name) = fdo)
    (h : fdo = none ∨
         ∃ n, fdo = some n ∧ env.sndSupported (n : Int) = false) :
    (driver_detect env s d cd).1 = false ∧
    (driver_detect env s d cd).2.1 = d ∧
    (driver_detect env s d cd).2.2.openFds =
      (match fdo with
       | none => s.openFds
       | some n => s.openFds.insert (n : Int)) := by
  rcases h with rfl | ⟨n, rfl, hs⟩
  · rw [driver_detect_open_fail env s d cd
          (by rw [open_checked_device_validate_none env s _ hv]),
        open_checked_device_validate_none env s _ hv]
    exact ⟨rfl, rfl, rfl⟩
  · rw [driver_detect_open_fail env s d cd
          (by rw [open_checked_device_snd_fail env s _ n hv hs]),
        open_checked_device_snd_fail env s _ n hv hs]
    exact ⟨rfl, rfl, rfl⟩

/-- C5 amended witness: the EVIOCGSND-failure case at fd 3. -/
theorem C5_open_failure_amended_witness :
    envNoSnd.validate ((some "/dev/input/event0").getD default_name) =
      some 3 ∧
    (some 3 = (none : Option Nat) ∨
     ∃ n, some 3 = some n ∧ envNoSnd.sndSupported (n : Int) = false) ∧
    ((driver_detect envNoSnd emptyState driver_data (some "/dev/input/event0")).1 = false ∧
     (driver_detect envNoSnd emptyState driver_data (some "/dev/input/event0")).2.1 =
       driver_data ∧
     (driver_detect envNoSnd emptyState driver_data
        (some "/dev/input/event0")).2.2.openFds =
       (match some 3 with
        | none => emptyState.openFds
        | some n => emptyState.openFds.insert (n : Int))) :=
  ⟨rfl, Or.inr ⟨3, rfl, rfl⟩,
   C5_open_failure_amended envNoSnd emptyState driver_data
     (some "/dev/input/event0") (some 3) rfl (Or.inr ⟨3, rfl, rfl⟩)⟩

/-- C7: `driver_detect` makes exactly one open attempt: on the supplied
candidate path when one is given, and on the single hard-coded default
path "/dev/input/by-path/platform-pcspkr-event-spkr" otherwise. -/
theorem C7_single_attempt (env : Env) (s : SysState) (d : BeepDriver) :
    (∀ p, (driver_detect env s d (some p)).2.2.attempts = s.attempts ++ [p]) ∧
    (driver_detect env s d none).2.2.attempts = s.attempts ++ [default_name] ∧
    default_name = "/dev/input/by-path/platform-pcspkr-event-spkr" := by
  refine ⟨fun p => ?_, ?_, rfl⟩ <;>
    · rw [driver_detect_sysstate, open_checked_device_attempts]
      rfl
